import Mathlib

/-!
Shallow embedding of the `interface-bench` Go programs.

The repository contains three near-identical benchmark programs, each of
which runs two timed loops over a counter of type `Int` (a named `int64`):
one loop calls the `Sum` method through the concrete type, the other
through the `Summable` interface.

* Variant A (`concrete_vs_interface.go`): value receiver,
  `func (i Int) Sum(i2 Int) Int { return i + i2 }`; the two loops use two
  independent counters, each started from the zero value.
* Variant B (`concrete_vs_interface_pointers.go`): pointer receiver,
  `func (i *Int) Sum(i2 Int) *Int { *i += i2; return i }`; both loops
  operate through pointers to the single variable `zero`.
* Variant C (`concrete_vs_interface_pointers_inplace.go`): pointer
  receiver with no return value, `func (i *Int) Sum(i2 Int) { *i += i2 }`;
  again both loops point at the single variable `zero`.

Go's `int64` arithmetic is two's-complement wraparound; we model `Int`
values as mathematical integers and the `+=`/`+` of `Sum` as addition
followed by reduction into the signed 64-bit window.  Pointers are
modelled as addresses (`ℕ`) into an explicit heap `ℕ → ℤ`.  Interface
values are modelled per program by what the only implementor stores in
them: a boxed `Int` in variant A, a pointer in variants B and C.  The
loop counter (`for i := 0; i < nbOps; i++`) never approaches the `int`
range, so iteration counts are plain naturals.
-/

/-- Two's-complement reduction of a mathematical integer into the signed
64-bit range, modelling the overflow behaviour of Go `int64` addition. -/
def wrap64 (x : ℤ) : ℤ := (x + 2 ^ 63) % 2 ^ 64 - 2 ^ 63

/-- `const nbOps int = 1e8`: the iteration count of every timed loop. -/
def nbOps : ℕ := 10 ^ 8

namespace VariantA

/-- `func (i Int) Sum(i2 Int) Int { return i + i2 }` — the value-receiver
`Sum` of `concrete_vs_interface.go`, on `int64` values. -/
def Sum (i i2 : ℤ) : ℤ := wrap64 (i + i2)

/-- A `Summable` interface value of variant A.  The only implementor in
the program is the concrete type `Int`, so an interface value is a boxed
`Int`. -/
structure Summable where
  val : ℤ

/-- Dispatching `Sum` through the interface: unbox the `Int`, call
`Int.Sum`, and box the returned `Int` back into the interface-typed
variable (`iInterface = iInterface.Sum(Int(10))`). -/
def Summable.Sum (s : Summable) (i2 : ℤ) : Summable := ⟨VariantA.Sum s.val i2⟩

/-- The first timed loop of variant A's `main`:
`for i := 0; i < n; i++ { iConcrete = iConcrete.Sum(Int(k)) }`,
generalised over the iteration count `n` and the increment `k`. -/
def concreteLoop (n : ℕ) (k : ℤ) (c : ℤ) : ℤ :=
  match n with
  | 0 => c
  | m + 1 => concreteLoop m k (Sum c k)

/-- The second timed loop of variant A's `main`:
`for i := 0; i < n; i++ { iInterface = iInterface.Sum(Int(k)) }`. -/
def interfaceLoop (n : ℕ) (k : ℤ) (s : Summable) : Summable :=
  match n with
  | 0 => s
  | m + 1 => interfaceLoop m k (s.Sum k)

/-- `iConcrete` as observed after the first loop of variant A's `main`
(zero initial value, `nbOps` iterations, increment `Int(10)`). -/
def mainConcrete : ℤ := concreteLoop nbOps 10 0

/-- `iInterface` as observed after the second loop of variant A's `main`
(seeded with `Int(0)`, `nbOps` iterations, increment `Int(10)`). -/
def mainInterface : Summable := interfaceLoop nbOps 10 ⟨0⟩

end VariantA

namespace VariantB

/-- Addressable storage for the `Int` variables of the program; a Go
pointer `*Int` is an address (`ℕ`) into this heap. -/
abbrev Heap := ℕ → ℤ

/-- `func (i *Int) Sum(i2 Int) *Int { *i += i2; return i }` — the
pointer-receiver `Sum` of `concrete_vs_interface_pointers.go`: it adds
`i2` into the cell the receiver points to and returns the receiver
pointer itself. -/
def Sum (h : Heap) (p : ℕ) (i2 : ℤ) : Heap × ℕ :=
  (Function.update h p (wrap64 (h p + i2)), p)

/-- A `Summable` interface value of variant B.  The only implementor is
`*Int`, so an interface value carries a pointer. -/
structure Summable where
  ptr : ℕ

/-- The first timed loop of variant B's `main`:
`for i := 0; i < n; i++ { iConcreteP = iConcreteP.Sum(Int(k)) }`; the
state is the heap together with the current value of `iConcreteP`. -/
def concreteLoop (n : ℕ) (k : ℤ) (s : Heap × ℕ) : Heap × ℕ :=
  match n with
  | 0 => s
  | m + 1 => concreteLoop m k (Sum s.1 s.2 k)

/-- The second timed loop of variant B's `main`:
`for i := 0; i < n; i++ { iInterfaceP = iInterfaceP.Sum(Int(k)) }`; the
returned `*Int` is boxed back into the interface-typed variable. -/
def interfaceLoop (n : ℕ) (k : ℤ) (s : Heap × Summable) : Heap × Summable :=
  match n with
  | 0 => s
  | m + 1 => interfaceLoop m k ((Sum s.1 s.2.ptr k).1, ⟨(Sum s.1 s.2.ptr k).2⟩)

/-- The address of the single counter variable `var zero Int` of
variant B's `main`. -/
def zeroAddr : ℕ := 0

/-- The heap at the start of `main`: every `Int` variable (there is only
`zero`) is zero-initialised. -/
def heap0 : Heap := fun _ => 0

/-- Heap and `iConcreteP` after the first timed loop of variant B's
`main` (`var iConcreteP *Int = &zero`), generalised over `n` and `k`. -/
def stateAfterConcrete (n : ℕ) (k : ℤ) : Heap × ℕ :=
  concreteLoop n k (heap0, zeroAddr)

/-- Heap and `iInterfaceP` after the second timed loop of variant B's
`main` (`var iInterfaceP Summable = &zero`): the interface loop starts
from the heap the first loop left behind, with the interface value again
pointing at `zero`. -/
def stateAfterInterface (n : ℕ) (k : ℤ) : Heap × Summable :=
  interfaceLoop n k ((stateAfterConcrete n k).1, ⟨zeroAddr⟩)

end VariantB

namespace VariantC

/-- Addressable storage for the `Int` variables of the program, as in
variant B. -/
abbrev Heap := ℕ → ℤ

/-- `func (i *Int) Sum(i2 Int) { *i += i2 }` — the in-place
pointer-receiver `Sum` of `concrete_vs_interface_pointers_inplace.go`:
it adds `i2` into the pointed-to cell and returns nothing. -/
def Sum (h : Heap) (p : ℕ) (i2 : ℤ) : Heap :=
  Function.update h p (wrap64 (h p + i2))

/-- A `Summable` interface value of variant C; the only implementor is
`*Int`, so it carries a pointer. -/
structure Summable where
  ptr : ℕ

/-- The first timed loop of variant C's `main`:
`for i := 0; i < n; i++ { iConcrete.Sum(Int(k)) }` — no reassignment,
`iConcrete` stays the same pointer `p` throughout. -/
def concreteLoop (n : ℕ) (k : ℤ) (p : ℕ) (h : Heap) : Heap :=
  match n with
  | 0 => h
  | m + 1 => concreteLoop m k p (Sum h p k)

/-- The second timed loop of variant C's `main`:
`for i := 0; i < n; i++ { iInterface.Sum(Int(k)) }` — the interface
value `s` is never rebound. -/
def interfaceLoop (n : ℕ) (k : ℤ) (s : Summable) (h : Heap) : Heap :=
  match n with
  | 0 => h
  | m + 1 => interfaceLoop m k s (Sum h s.ptr k)

/-- The address of the single counter variable `var zero Int` of
variant C's `main`. -/
def zeroAddr : ℕ := 0

/-- The heap at the start of variant C's `main`. -/
def heap0 : Heap := fun _ => 0

/-- The heap after the first timed loop of variant C's `main`
(`var iConcrete *Int = &zero`). -/
def heapAfterConcrete (n : ℕ) (k : ℤ) : Heap :=
  concreteLoop n k zeroAddr heap0

/-- The heap after the second timed loop of variant C's `main`
(`var iInterface Summable = &zero`), run on the heap the first loop left
behind. -/
def heapAfterInterface (n : ℕ) (k : ℤ) : Heap :=
  interfaceLoop n k ⟨zeroAddr⟩ (heapAfterConcrete n k)

end VariantC

/-- The two `fmt.Printf` lines each variant's `main` writes to standard
output, in order, as a list of lines; `%d` receives `nbOps` and `%v` a
rendered duration, which is taken as an argument because wall-clock time
is outside the model.  All three programs use these exact format
strings. -/
def mainOutput (dConcrete dInterface : String) : List String :=
  ["[concrete]  computed " ++ toString nbOps ++ " sums in " ++ dConcrete,
   "[interface] computed " ++ toString nbOps ++ " sums in " ++ dInterface]

/-! ### Basic lemmas about the embedding -/

theorem wrap64_eq_self (x : ℤ) (h1 : -2 ^ 63 ≤ x) (h2 : x < 2 ^ 63) :
    wrap64 x = x := by
  unfold wrap64
  rw [Int.emod_eq_of_lt (by linarith) (by linarith)]
  ring

theorem concreteLoopA_linear :
    ∀ (n : ℕ) (k c : ℤ), 0 ≤ k → 0 ≤ c → c + n * k < 2 ^ 63 →
      VariantA.concreteLoop n k c = c + n * k := by
  intro n
  induction n with
  | zero => intro k c _ _ _; simp [VariantA.concreteLoop]
  | succ m ih =>
    intro k c hk hc hb
    have hmk : (0 : ℤ) ≤ (m : ℤ) * k := mul_nonneg (Int.natCast_nonneg m) hk
    have hcast : ((m + 1 : ℕ) : ℤ) = (m : ℤ) + 1 := by push_cast; ring
    rw [hcast] at hb
    have hck : c + k < 2 ^ 63 := by nlinarith
    have h63 : (0 : ℤ) < 2 ^ 63 := by norm_num
    have hsum : VariantA.Sum c k = c + k := by
      unfold VariantA.Sum
      exact wrap64_eq_self (c + k) (by linarith) hck
    have : VariantA.concreteLoop (m + 1) k c =
        VariantA.concreteLoop m k (VariantA.Sum c k) := rfl
    rw [this, hsum, ih k (c + k) hk (by linarith) (by linarith)]
    rw [hcast]; ring

theorem interfaceLoopA_box :
    ∀ (n : ℕ) (k : ℤ) (s : VariantA.Summable),
      VariantA.interfaceLoop n k s = ⟨VariantA.concreteLoop n k s.val⟩ := by
  intro n
  induction n with
  | zero => intro k s; rfl
  | succ m ih =>
    intro k s
    show VariantA.interfaceLoop m k (s.Sum k) = _
    rw [ih]
    rfl

theorem concreteLoopB_spec :
    ∀ (n : ℕ) (k : ℤ) (h : VariantB.Heap) (p : ℕ),
      VariantB.concreteLoop n k (h, p) =
        (Function.update h p (VariantA.concreteLoop n k (h p)), p) := by
  intro n
  induction n with
  | zero =>
    intro k h p
    show (h, p) = _
    rw [show VariantA.concreteLoop 0 k (h p) = h p from rfl,
      Function.update_eq_self]
  | succ m ih =>
    intro k h p
    show VariantB.concreteLoop m k
      (Function.update h p (wrap64 (h p + k)), p) = _
    rw [ih, Function.update_same, Function.update_idem]
    rfl

theorem interfaceLoopB_spec :
    ∀ (n : ℕ) (k : ℤ) (h : VariantB.Heap) (p : ℕ),
      VariantB.interfaceLoop n k (h, ⟨p⟩) =
        (Function.update h p (VariantA.concreteLoop n k (h p)), ⟨p⟩) := by
  intro n
  induction n with
  | zero =>
    intro k h p
    show (h, _) = _
    rw [show VariantA.concreteLoop 0 k (h p) = h p from rfl,
      Function.update_eq_self]
  | succ m ih =>
    intro k h p
    show VariantB.interfaceLoop m k
      (Function.update h p (wrap64 (h p + k)), ⟨p⟩) = _
    rw [ih, Function.update_same, Function.update_idem]
    rfl

theorem concreteLoopC_spec :
    ∀ (n : ℕ) (k : ℤ) (p : ℕ) (h : VariantC.Heap),
      VariantC.concreteLoop n k p h =
        Function.update h p (VariantA.concreteLoop n k (h p)) := by
  intro n
  induction n with
  | zero =>
    intro k p h
    show h = _
    rw [show VariantA.concreteLoop 0 k (h p) = h p from rfl,
      Function.update_eq_self]
  | succ m ih =>
    intro k p h
    show VariantC.concreteLoop m k p (Function.update h p (wrap64 (h p + k))) = _
    rw [ih, Function.update_same, Function.update_idem]
    rfl

theorem interfaceLoopC_spec :
    ∀ (n : ℕ) (k : ℤ) (s : VariantC.Summable) (h : VariantC.Heap),
      VariantC.interfaceLoop n k s h =
        Function.update h s.ptr (VariantA.concreteLoop n k (h s.ptr)) := by
  intro n
  induction n with
  | zero =>
    intro k s h
    show h = _
    rw [show VariantA.concreteLoop 0 k (h s.ptr) = h s.ptr from rfl,
      Function.update_eq_self]
  | succ m ih =>
    intro k s h
    show VariantC.interfaceLoop m k s
      (Function.update h s.ptr (wrap64 (h s.ptr + k))) = _
    rw [ih, Function.update_same, Function.update_idem]
    rfl

theorem stateB_concrete_eq (n : ℕ) (k : ℤ) :
    VariantB.stateAfterConcrete n k =
      (Function.update VariantB.heap0 VariantB.zeroAddr
        (VariantA.concreteLoop n k 0), VariantB.zeroAddr) := by
  unfold VariantB.stateAfterConcrete
  rw [concreteLoopB_spec]
  rfl

theorem stateB_interface_eq (n : ℕ) (k : ℤ) :
    VariantB.stateAfterInterface n k =
      (Function.update VariantB.heap0 VariantB.zeroAddr
        (VariantA.concreteLoop n k (VariantA.concreteLoop n k 0)),
       ⟨VariantB.zeroAddr⟩) := by
  unfold VariantB.stateAfterInterface
  rw [stateB_concrete_eq]
  show VariantB.interfaceLoop n k
    (Function.update VariantB.heap0 VariantB.zeroAddr
      (VariantA.concreteLoop n k 0), ⟨VariantB.zeroAddr⟩) = _
  rw [interfaceLoopB_spec, Function.update_same, Function.update_idem]

theorem heapC_concrete_eq (n : ℕ) (k : ℤ) :
    VariantC.heapAfterConcrete n k =
      Function.update VariantC.heap0 VariantC.zeroAddr
        (VariantA.concreteLoop n k 0) := by
  unfold VariantC.heapAfterConcrete
  rw [concreteLoopC_spec]
  rfl

theorem heapC_interface_eq (n : ℕ) (k : ℤ) :
    VariantC.heapAfterInterface n k =
      Function.update VariantC.heap0 VariantC.zeroAddr
        (VariantA.concreteLoop n k (VariantA.concreteLoop n k 0)) := by
  unfold VariantC.heapAfterInterface
  rw [heapC_concrete_eq, interfaceLoopC_spec]
  dsimp only
  rw [Function.update_same, Function.update_idem]

theorem loopA_zero (n : ℕ) (k : ℤ) (hk : 0 ≤ k) (hb : (n : ℤ) * k < 2 ^ 63) :
    VariantA.concreteLoop n k 0 = (n : ℤ) * k := by
  have := concreteLoopA_linear n k 0 hk le_rfl (by linarith)
  rw [this]
  ring

theorem loopA_double (n : ℕ) (k : ℤ) (hk : 0 ≤ k)
    (hb : 2 * ((n : ℤ) * k) < 2 ^ 63) :
    VariantA.concreteLoop n k ((n : ℤ) * k) = 2 * ((n : ℤ) * k) := by
  have hnk : (0 : ℤ) ≤ (n : ℤ) * k := mul_nonneg (Int.natCast_nonneg n) hk
  have := concreteLoopA_linear n k ((n : ℤ) * k) hk hnk (by linarith)
  rw [this]
  ring

theorem loopA_zero_1e9 : VariantA.concreteLoop nbOps 10 0 = 10 ^ 9 := by
  have := loopA_zero nbOps 10 (by norm_num) (by norm_num [nbOps])
  rw [this]
  norm_num [nbOps]

theorem loopA_1e9_2e9 : VariantA.concreteLoop nbOps 10 (10 ^ 9) = 2 * 10 ^ 9 := by
  have h : ((nbOps : ℤ)) * 10 = 10 ^ 9 := by norm_num [nbOps]
  have := loopA_double nbOps 10 (by norm_num) (by norm_num [nbOps])
  rw [h] at this
  rw [this]

theorem mainA_concrete_1e9 : VariantA.mainConcrete = 10 ^ 9 := by
  unfold VariantA.mainConcrete
  exact loopA_zero_1e9

theorem mainA_interface_1e9 : VariantA.mainInterface.val = 10 ^ 9 := by
  unfold VariantA.mainInterface
  rw [interfaceLoopA_box]
  dsimp only
  exact loopA_zero_1e9

theorem cellB_concrete (n : ℕ) (k : ℤ) :
    (VariantB.stateAfterConcrete n k).1 VariantB.zeroAddr =
      VariantA.concreteLoop n k 0 := by
  rw [stateB_concrete_eq]
  exact Function.update_same VariantB.zeroAddr (VariantA.concreteLoop n k 0)
    VariantB.heap0

theorem cellB_interface (n : ℕ) (k : ℤ) :
    (VariantB.stateAfterInterface n k).1 VariantB.zeroAddr =
      VariantA.concreteLoop n k (VariantA.concreteLoop n k 0) := by
  rw [stateB_interface_eq]
  exact Function.update_same VariantB.zeroAddr
    (VariantA.concreteLoop n k (VariantA.concreteLoop n k 0)) VariantB.heap0

theorem cellC_concrete (n : ℕ) (k : ℤ) :
    VariantC.heapAfterConcrete n k VariantC.zeroAddr =
      VariantA.concreteLoop n k 0 := by
  rw [heapC_concrete_eq]
  exact Function.update_same VariantC.zeroAddr (VariantA.concreteLoop n k 0)
    VariantC.heap0

theorem cellC_interface (n : ℕ) (k : ℤ) :
    VariantC.heapAfterInterface n k VariantC.zeroAddr =
      VariantA.concreteLoop n k (VariantA.concreteLoop n k 0) := by
  rw [heapC_interface_eq]
  exact Function.update_same VariantC.zeroAddr
    (VariantA.concreteLoop n k (VariantA.concreteLoop n k 0)) VariantC.heap0

theorem cellB_concrete_1e9 :
    (VariantB.stateAfterConcrete nbOps 10).1 VariantB.zeroAddr = 10 ^ 9 := by
  rw [cellB_concrete]
  exact loopA_zero_1e9

theorem cellB_interface_2e9 :
    (VariantB.stateAfterInterface nbOps 10).1 VariantB.zeroAddr = 2 * 10 ^ 9 := by
  rw [cellB_interface, loopA_zero_1e9]
  exact loopA_1e9_2e9

theorem cellC_concrete_1e9 :
    VariantC.heapAfterConcrete nbOps 10 VariantC.zeroAddr = 10 ^ 9 := by
  rw [cellC_concrete]
  exact loopA_zero_1e9

theorem cellC_interface_2e9 :
    VariantC.heapAfterInterface nbOps 10 VariantC.zeroAddr = 2 * 10 ^ 9 := by
  rw [cellC_interface, loopA_zero_1e9]
  exact loopA_1e9_2e9

/-!  ### Claim theorems -/

/-- C1: in every variant, the polymorphic (interface-dispatched) loop body
performs exactly the same logical operation as the direct (concrete-typed)
loop body: started from the same counter value (variant A) or the same
heap and pointer (variants B and C), running the polymorphic loop for `n`
iterations with increment `k` yields the same final counter value (and,
for the pointer variants, the same final heap and designated address) as
running the direct loop. -/
theorem C1_poly_matches_direct :
    ∀ (n : ℕ) (k c : ℤ) (hB : VariantB.Heap) (p : ℕ) (hC : VariantC.Heap)
      (q : ℕ),
      (VariantA.interfaceLoop n k ⟨c⟩).val = VariantA.concreteLoop n k c ∧
      VariantB.interfaceLoop n k (hB, ⟨p⟩) =
        ((VariantB.concreteLoop n k (hB, p)).1,
         ⟨(VariantB.concreteLoop n k (hB, p)).2⟩) ∧
      VariantC.interfaceLoop n k ⟨q⟩ hC = VariantC.concreteLoop n k q hC := by
  intro n k c hB p hC q
  refine ⟨?_, ?_, ?_⟩
  · rw [interfaceLoopA_box]
  · rw [interfaceLoopB_spec, concreteLoopB_spec]
  · rw [interfaceLoopC_spec, concreteLoopC_spec]

/-- C8: zero-iteration edge case — with the loop bound generalised to a
parameter and set to `0`, both the direct loop and the polymorphic loop of
every variant perform no increment call and leave the counter (and, in the
pointer variants, the whole state) unchanged. -/
theorem C8_zero_iterations :
    ∀ (k c : ℤ) (s : VariantA.Summable) (b : VariantB.Heap × ℕ)
      (t : VariantB.Heap × VariantB.Summable) (p : ℕ)
      (sc : VariantC.Summable) (h : VariantC.Heap),
      VariantA.concreteLoop 0 k c = c ∧
      VariantA.interfaceLoop 0 k s = s ∧
      VariantB.concreteLoop 0 k b = b ∧
      VariantB.interfaceLoop 0 k t = t ∧
      VariantC.concreteLoop 0 k p h = h ∧
      VariantC.interfaceLoop 0 k sc h = h := by
  intro k c s b t p sc h
  exact ⟨rfl, rfl, rfl, rfl, rfl, rfl⟩

/-- C10: in variant B the pointer-receiver `Sum` returns exactly the
receiver pointer it was invoked on, so the reassignments in both loops
never change which storage the handles designate: after any number of
iterations the concrete pointer and the interface-held pointer still equal
the initial address `p`, and no heap cell other than the one at `p` is
ever written by either loop. -/
theorem C10_receiver_pointer_stable (h : VariantB.Heap) (p : ℕ) (k : ℤ)
    (i : ℕ) (a : ℕ) (ha : a ≠ p) :
    (VariantB.Sum h p k).2 = p ∧
    (VariantB.concreteLoop i k (h, p)).2 = p ∧
    (VariantB.interfaceLoop i k (h, ⟨p⟩)).2.ptr = p ∧
    (VariantB.concreteLoop i k (h, p)).1 a = h a ∧
    (VariantB.interfaceLoop i k (h, ⟨p⟩)).1 a = h a := by
  rw [concreteLoopB_spec, interfaceLoopB_spec]
  exact ⟨rfl, rfl, rfl, Function.update_noteq ha _ _,
    Function.update_noteq ha _ _⟩

/-- Witness for C10 at the program's own configuration: the initial heap,
`p` the address of `zero`, increment `10`, the full `nbOps` iterations,
and the distinct address `1`. -/
theorem C10_receiver_pointer_stable_witness :
    (1 : ℕ) ≠ 0 ∧
    ((VariantB.Sum VariantB.heap0 0 10).2 = 0 ∧
     (VariantB.concreteLoop nbOps 10 (VariantB.heap0, 0)).2 = 0 ∧
     (VariantB.interfaceLoop nbOps 10 (VariantB.heap0, ⟨0⟩)).2.ptr = 0 ∧
     (VariantB.concreteLoop nbOps 10 (VariantB.heap0, 0)).1 1 =
       VariantB.heap0 1 ∧
     (VariantB.interfaceLoop nbOps 10 (VariantB.heap0, ⟨0⟩)).1 1 =
       VariantB.heap0 1) :=
  ⟨by decide, C10_receiver_pointer_stable VariantB.heap0 0 10 nbOps 1 (by decide)⟩

/-- C2: in every variant, each timed loop applies the increment `10` to
its counter exactly `nbOps = 10^8` times, so the counter the loop operates
on, observed right after the loop, equals its value right before the loop
plus `10 * 10^8`; in particular the loops that start from a zero counter
(variant A's two loops, and the first loop of variants B and C) end with
the counter at `10^9`, while the second loop of variants B and C starts
from `10 * 10^8` and ends at `10 * 10^8 + 10 * 10^8`. -/
theorem C2_each_loop_adds_1e9 :
    VariantA.mainConcrete = 0 + 10 * 10 ^ 8 ∧
    VariantA.mainInterface.val = 0 + 10 * 10 ^ 8 ∧
    (VariantB.stateAfterConcrete nbOps 10).1 VariantB.zeroAddr =
      0 + 10 * 10 ^ 8 ∧
    (VariantB.stateAfterInterface nbOps 10).1 VariantB.zeroAddr =
      10 * 10 ^ 8 + 10 * 10 ^ 8 ∧
    VariantC.heapAfterConcrete nbOps 10 VariantC.zeroAddr =
      0 + 10 * 10 ^ 8 ∧
    VariantC.heapAfterInterface nbOps 10 VariantC.zeroAddr =
      10 * 10 ^ 8 + 10 * 10 ^ 8 ∧
    VariantA.mainConcrete = 10 ^ 9 := by
  have e1 : (0 + 10 * 10 ^ 8 : ℤ) = 10 ^ 9 := by norm_num
  have e2 : (10 * 10 ^ 8 + 10 * 10 ^ 8 : ℤ) = 2 * 10 ^ 9 := by norm_num
  rw [e1, e2]
  exact ⟨mainA_concrete_1e9, mainA_interface_1e9, cellB_concrete_1e9,
    cellB_interface_2e9, cellC_concrete_1e9, cellC_interface_2e9,
    mainA_concrete_1e9⟩

/-- C5: in the pointer-receiver variants B and C, both loops are seeded
from the same backing storage — the single variable `zero` — so the two
loops are not independent: the direct loop leaves `zero` at `10^9`, the
polymorphic loop is seeded with a pointer to that same address and hence
begins from `10^9`, and after both loops the shared counter equals
`2 * 10^8 * 10 = 2 * 10^9`. -/
theorem C5_pointer_loops_share_zero :
    (VariantB.stateAfterConcrete nbOps 10).2 = VariantB.zeroAddr ∧
    (VariantB.stateAfterConcrete nbOps 10).1 VariantB.zeroAddr = 10 ^ 9 ∧
    (VariantB.stateAfterInterface nbOps 10).1 VariantB.zeroAddr =
      2 * 10 ^ 8 * 10 ∧
    VariantC.heapAfterConcrete nbOps 10 VariantC.zeroAddr = 10 ^ 9 ∧
    VariantC.heapAfterInterface nbOps 10 VariantC.zeroAddr =
      2 * 10 ^ 8 * 10 ∧
    (2 * 10 ^ 8 * 10 : ℤ) = 2 * 10 ^ 9 := by
  have e : (2 * 10 ^ 8 * 10 : ℤ) = 2 * 10 ^ 9 := by norm_num
  rw [e]
  refine ⟨?_, cellB_concrete_1e9, cellB_interface_2e9, cellC_concrete_1e9,
    cellC_interface_2e9, rfl⟩
  rw [stateB_concrete_eq]

/-- C7: each program invocation emits exactly two lines to standard
output, in fixed order: first the `[concrete]` line for the direct loop,
then the `[interface]` line for the polymorphic loop, each carrying the
iteration count `100000000` and a duration value. -/
theorem C7_two_output_lines :
    ∀ d1 d2 : String,
      mainOutput d1 d2 =
        ["[concrete]" ++ "  computed " ++ "100000000" ++ " sums in " ++ d1,
         "[interface]" ++ " computed " ++ "100000000" ++ " sums in " ++ d2] ∧
      (mainOutput d1 d2).length = 2 := by
  intro d1 d2
  have h1 : "[concrete]  computed " ++ toString nbOps ++ " sums in " =
      "[concrete]" ++ "  computed " ++ "100000000" ++ " sums in " := by decide
  have h2 : "[interface] computed " ++ toString nbOps ++ " sums in " =
      "[interface]" ++ " computed " ++ "100000000" ++ " sums in " := by decide
  constructor
  · show ["[concrete]  computed " ++ toString nbOps ++ " sums in " ++ d1,
      "[interface] computed " ++ toString nbOps ++ " sums in " ++ d2] = _
    rw [h1, h2]
  · rfl

/-- C6: for the fixed parameters `n = 10^8` and `k = 10`, every
intermediate and final counter value of every loop of every variant is the
unwrapped linear value — `10 * i` after `i` iterations of a loop started
from zero, `10^9 + 10 * i` for the second loop of the shared-storage
pointer variants — hence stays at most `2 * 10^9`, strictly inside the
signed 64-bit range, and the `int64` addition performed by `Sum` at each
of those values coincides with exact integer addition (no overflow). -/
theorem C6_no_overflow (i : ℕ) (hi : i ≤ nbOps) :
    VariantA.concreteLoop i 10 0 = 10 * i ∧
    (VariantA.interfaceLoop i 10 ⟨0⟩).val = 10 * i ∧
    (VariantB.stateAfterConcrete i 10).1 VariantB.zeroAddr = 10 * i ∧
    (VariantB.interfaceLoop i 10
      ((VariantB.stateAfterConcrete nbOps 10).1, ⟨VariantB.zeroAddr⟩)).1
        VariantB.zeroAddr = 10 ^ 9 + 10 * i ∧
    VariantC.heapAfterConcrete i 10 VariantC.zeroAddr = 10 * i ∧
    VariantC.interfaceLoop i 10 ⟨VariantC.zeroAddr⟩
      (VariantC.heapAfterConcrete nbOps 10) VariantC.zeroAddr =
        10 ^ 9 + 10 * i ∧
    10 ^ 9 + 10 * (i : ℤ) ≤ 2 * 10 ^ 9 ∧ (2 * 10 ^ 9 : ℤ) < 2 ^ 63 ∧
    VariantA.Sum (10 * i) 10 = 10 * i + 10 ∧
    VariantA.Sum (10 ^ 9 + 10 * i) 10 = 10 ^ 9 + 10 * i + 10 := by
  have hi' : (i : ℤ) ≤ 10 ^ 8 := by
    unfold nbOps at hi
    exact_mod_cast hi
  have hi0 : (0 : ℤ) ≤ (i : ℤ) := Int.natCast_nonneg i
  have hzero : VariantA.concreteLoop i 10 0 = 10 * i := by
    rw [concreteLoopA_linear i 10 0 (by norm_num) le_rfl (by linarith)]
    ring
  have hsecond : VariantA.concreteLoop i 10 (10 ^ 9) = 10 ^ 9 + 10 * i := by
    rw [concreteLoopA_linear i 10 (10 ^ 9) (by norm_num) (by norm_num)
      (by linarith)]
    ring
  refine ⟨hzero, ?_, ?_, ?_, ?_, ?_, by linarith, by norm_num, ?_, ?_⟩
  · rw [interfaceLoopA_box]
    dsimp only
    exact hzero
  · rw [cellB_concrete]
    exact hzero
  · rw [stateB_concrete_eq]
    dsimp only
    rw [interfaceLoopB_spec]
    dsimp only
    rw [Function.update_same, Function.update_same, loopA_zero_1e9, hsecond]
  · rw [cellC_concrete]
    exact hzero
  · rw [heapC_concrete_eq, interfaceLoopC_spec]
    dsimp only
    rw [Function.update_same, Function.update_same, loopA_zero_1e9, hsecond]
  · unfold VariantA.Sum
    exact wrap64_eq_self _ (by linarith) (by linarith)
  · unfold VariantA.Sum
    exact wrap64_eq_self _ (by linarith) (by linarith)

/-- Witness for C6 at the full iteration count `i = nbOps`. -/
theorem C6_no_overflow_witness :
    nbOps ≤ nbOps ∧
    (VariantA.concreteLoop nbOps 10 0 = 10 * nbOps ∧
     (VariantA.interfaceLoop nbOps 10 ⟨0⟩).val = 10 * nbOps ∧
     (VariantB.stateAfterConcrete nbOps 10).1 VariantB.zeroAddr =
       10 * nbOps ∧
     (VariantB.interfaceLoop nbOps 10
       ((VariantB.stateAfterConcrete nbOps 10).1, ⟨VariantB.zeroAddr⟩)).1
         VariantB.zeroAddr = 10 ^ 9 + 10 * nbOps ∧
     VariantC.heapAfterConcrete nbOps 10 VariantC.zeroAddr = 10 * nbOps ∧
     VariantC.interfaceLoop nbOps 10 ⟨VariantC.zeroAddr⟩
       (VariantC.heapAfterConcrete nbOps 10) VariantC.zeroAddr =
         10 ^ 9 + 10 * nbOps ∧
     10 ^ 9 + 10 * (nbOps : ℤ) ≤ 2 * 10 ^ 9 ∧ (2 * 10 ^ 9 : ℤ) < 2 ^ 63 ∧
     VariantA.Sum (10 * nbOps) 10 = 10 * nbOps + 10 ∧
     VariantA.Sum (10 ^ 9 + 10 * nbOps) 10 = 10 ^ 9 + 10 * nbOps + 10) :=
  ⟨le_rfl, C6_no_overflow nbOps le_rfl⟩

/-- C3 counterexample: the claim "for all runs with iteration count N and
increment k, every counter that starts from zero ends with final value
N * k" fails on the `int64` arithmetic of the code — with N = 2 and
k = 2^63 - 1 the second addition wraps around, so the final value is not
2 * (2^63 - 1); and its claim that in each variant as written the value
observed through the interface handle after the second loop equals 10^9
fails for the pointer variant B, whose shared counter reads 2 * 10^9
there. -/
theorem C3_counterexample :
    VariantA.concreteLoop 2 (2 ^ 63 - 1) 0 ≠ 2 * (2 ^ 63 - 1) ∧
    (VariantB.stateAfterInterface nbOps 10).1 VariantB.zeroAddr ≠ 10 ^ 9 := by
  constructor
  · decide
  · rw [cellB_interface_2e9]
    norm_num

/-- C3 (amended): for all runs with iteration count `n` and nonnegative
increment `k` starting from zero such that `n * k` fits below `2^63` (no
`int64` overflow), every counter ends at `n * k` on both dispatch paths;
in variant A as written both handles read `10^9`, while in the
pointer-receiver variants as written the concrete handle reads `10^9`
after the first loop but the interface handle reads `2 * 10^9` after the
second loop, because both loops increment the same shared variable
`zero`. -/
theorem C3_final_value_no_overflow (n : ℕ) (k : ℤ) (hk : 0 ≤ k)
    (hb : (n : ℤ) * k < 2 ^ 63) :
    VariantA.concreteLoop n k 0 = n * k ∧
    (VariantA.interfaceLoop n k ⟨0⟩).val = n * k ∧
    (VariantB.stateAfterConcrete n k).1 VariantB.zeroAddr = n * k ∧
    (VariantB.interfaceLoop n k (VariantB.heap0, ⟨VariantB.zeroAddr⟩)).1
      VariantB.zeroAddr = n * k ∧
    VariantC.heapAfterConcrete n k VariantC.zeroAddr = n * k ∧
    VariantC.interfaceLoop n k ⟨VariantC.zeroAddr⟩ VariantC.heap0
      VariantC.zeroAddr = n * k ∧
    VariantA.mainConcrete = 10 ^ 9 ∧
    VariantA.mainInterface.val = 10 ^ 9 ∧
    (VariantB.stateAfterConcrete nbOps 10).1 VariantB.zeroAddr = 10 ^ 9 ∧
    (VariantB.stateAfterInterface nbOps 10).1 VariantB.zeroAddr =
      2 * 10 ^ 9 ∧
    VariantC.heapAfterConcrete nbOps 10 VariantC.zeroAddr = 10 ^ 9 ∧
    VariantC.heapAfterInterface nbOps 10 VariantC.zeroAddr = 2 * 10 ^ 9 := by
  refine ⟨loopA_zero n k hk hb, ?_, ?_, ?_, ?_, ?_, mainA_concrete_1e9,
    mainA_interface_1e9, cellB_concrete_1e9, cellB_interface_2e9,
    cellC_concrete_1e9, cellC_interface_2e9⟩
  · rw [interfaceLoopA_box]
    dsimp only
    exact loopA_zero n k hk hb
  · rw [cellB_concrete]
    exact loopA_zero n k hk hb
  · rw [interfaceLoopB_spec]
    dsimp only
    rw [Function.update_same]
    exact loopA_zero n k hk hb
  · rw [cellC_concrete]
    exact loopA_zero n k hk hb
  · rw [interfaceLoopC_spec]
    dsimp only
    rw [Function.update_same]
    exact loopA_zero n k hk hb

/-- Witness for C3 (amended) at the program's own parameters `n = nbOps`
and `k = 10`. -/
theorem C3_final_value_no_overflow_witness :
    (0 : ℤ) ≤ 10 ∧ ((nbOps : ℤ) * 10 < 2 ^ 63 ∧
    (VariantA.concreteLoop nbOps 10 0 = nbOps * 10 ∧
     (VariantA.interfaceLoop nbOps 10 ⟨0⟩).val = nbOps * 10 ∧
     (VariantB.stateAfterConcrete nbOps 10).1 VariantB.zeroAddr =
       nbOps * 10 ∧
     (VariantB.interfaceLoop nbOps 10 (VariantB.heap0, ⟨VariantB.zeroAddr⟩)).1
       VariantB.zeroAddr = nbOps * 10 ∧
     VariantC.heapAfterConcrete nbOps 10 VariantC.zeroAddr = nbOps * 10 ∧
     VariantC.interfaceLoop nbOps 10 ⟨VariantC.zeroAddr⟩ VariantC.heap0
       VariantC.zeroAddr = nbOps * 10 ∧
     VariantA.mainConcrete = 10 ^ 9 ∧
     VariantA.mainInterface.val = 10 ^ 9 ∧
     (VariantB.stateAfterConcrete nbOps 10).1 VariantB.zeroAddr = 10 ^ 9 ∧
     (VariantB.stateAfterInterface nbOps 10).1 VariantB.zeroAddr =
       2 * 10 ^ 9 ∧
     VariantC.heapAfterConcrete nbOps 10 VariantC.zeroAddr = 10 ^ 9 ∧
     VariantC.heapAfterInterface nbOps 10 VariantC.zeroAddr =
       2 * 10 ^ 9)) :=
  ⟨by norm_num, by norm_num [nbOps],
    C3_final_value_no_overflow nbOps 10 (by norm_num) (by norm_num [nbOps])⟩

/-- C4 counterexample: the final counter value at process end is not
identical across the variants for the program's own `(N, k)`: variant A's
counters end at `10^9` while the shared counter of variants B and C ends
at `2 * 10^9`. -/
theorem C4_counterexample :
    (VariantB.stateAfterInterface nbOps 10).1 VariantB.zeroAddr ≠
      VariantA.mainConcrete ∧
    VariantC.heapAfterInterface nbOps 10 VariantC.zeroAddr ≠
      VariantA.mainInterface.val := by
  rw [cellB_interface_2e9, cellC_interface_2e9, mainA_concrete_1e9,
    mainA_interface_1e9]
  exact ⟨by norm_num, by norm_num⟩

/-- C4 (amended): for the same `(n, k)` inputs the counter value observed
after the direct loop is identical across variants A, B and C (namely
`n * k` from a zero start), and the interface loop of variant A also ends
at `n * k`; but the process-end values differ across variants: variant A's
counters hold `n * k`, while the shared counter of variants B and C holds
`2 * (n * k)` because their two loops accumulate into the same variable
`zero`. -/
theorem C4_variant_outcomes (n : ℕ) (k : ℤ) (hk : 0 ≤ k)
    (hb : 2 * ((n : ℤ) * k) < 2 ^ 63) :
    VariantA.concreteLoop n k 0 = n * k ∧
    (VariantB.stateAfterConcrete n k).1 VariantB.zeroAddr = n * k ∧
    VariantC.heapAfterConcrete n k VariantC.zeroAddr = n * k ∧
    (VariantA.interfaceLoop n k ⟨0⟩).val = n * k ∧
    (VariantB.stateAfterInterface n k).1 VariantB.zeroAddr =
      2 * ((n : ℤ) * k) ∧
    VariantC.heapAfterInterface n k VariantC.zeroAddr =
      2 * ((n : ℤ) * k) := by
  have hnk : (0 : ℤ) ≤ (n : ℤ) * k := mul_nonneg (Int.natCast_nonneg n) hk
  have hb1 : (n : ℤ) * k < 2 ^ 63 := by linarith
  refine ⟨loopA_zero n k hk hb1, ?_, ?_, ?_, ?_, ?_⟩
  · rw [cellB_concrete]
    exact loopA_zero n k hk hb1
  · rw [cellC_concrete]
    exact loopA_zero n k hk hb1
  · rw [interfaceLoopA_box]
    dsimp only
    exact loopA_zero n k hk hb1
  · rw [cellB_interface, loopA_zero n k hk hb1]
    exact loopA_double n k hk hb
  · rw [cellC_interface, loopA_zero n k hk hb1]
    exact loopA_double n k hk hb

/-- Witness for C4 (amended) at the program's own parameters `n = nbOps`
and `k = 10`. -/
theorem C4_variant_outcomes_witness :
    (0 : ℤ) ≤ 10 ∧ (2 * ((nbOps : ℤ) * 10) < 2 ^ 63 ∧
    (VariantA.concreteLoop nbOps 10 0 = nbOps * 10 ∧
     (VariantB.stateAfterConcrete nbOps 10).1 VariantB.zeroAddr =
       nbOps * 10 ∧
     VariantC.heapAfterConcrete nbOps 10 VariantC.zeroAddr = nbOps * 10 ∧
     (VariantA.interfaceLoop nbOps 10 ⟨0⟩).val = nbOps * 10 ∧
     (VariantB.stateAfterInterface nbOps 10).1 VariantB.zeroAddr =
       2 * ((nbOps : ℤ) * 10) ∧
     VariantC.heapAfterInterface nbOps 10 VariantC.zeroAddr =
       2 * ((nbOps : ℤ) * 10))) :=
  ⟨by norm_num, by norm_num [nbOps],
    C4_variant_outcomes nbOps 10 (by norm_num) (by norm_num [nbOps])⟩
